import Mathlib

/-!
Verification of the scrollytelling page (`src/app/page.tsx`) and the reveal
shader component (`src/components/ui/reveal-wave-image.tsx`).

All numeric quantities are modelled over `ℚ` (the source uses IEEE doubles,
but every constant and operation involved in the claims is exact decimal /
small-integer arithmetic, so rationals are a faithful model).  The viewport
height `window.innerHeight` is an arbitrary positive parameter `h`.
-/

namespace InsaneWebsite

/-! ### Scroll timeline: phase extents and the clamped virtual scroll
    (page.tsx lines 46-59, 284-296, 339-358) -/

/-- Phase 1 extent: `videoScrollMax = 4 * window.innerHeight`. -/
def videoScrollMax (h : ℚ) : ℚ := 4 * h

/-- Phase 2 extent: `textExitScrollMax = 2 * window.innerHeight`. -/
def textExitScrollMax (h : ℚ) : ℚ := 2 * h

/-- Phase 3 extent: `elCapitanSlideUpMax = 1 * window.innerHeight`. -/
def elCapitanSlideUpMax (h : ℚ) : ℚ := 1 * h

/-- Phase 4 extent: `elCapitanSlideRightMax = 1 * window.innerHeight`. -/
def elCapitanSlideRightMax (h : ℚ) : ℚ := 1 * h

/-- Phase 5 extent: `trumpVideoFadeMax = 4 * window.innerHeight`. -/
def trumpVideoFadeMax (h : ℚ) : ℚ := 4 * h

/-- `maxScroll`, the sum of the five phase extents (page.tsx line 56). -/
def maxScroll (h : ℚ) : ℚ :=
  videoScrollMax h + textExitScrollMax h + elCapitanSlideUpMax h +
    elCapitanSlideRightMax h + trumpVideoFadeMax h

/-- `Math.max(0, Math.min(maxScroll, v))` (page.tsx line 295). -/
def clampScroll (h v : ℚ) : ℚ := max 0 (min (maxScroll h) v)

/-- Effect of one wheel event on `virtualScroll` (page.tsx lines 291-295):
    deltas with `|deltaY| < 5` are ignored (trackpad-momentum filter), larger
    deltas are accumulated and clamped. -/
def wheelScroll (h v d : ℚ) : ℚ :=
  if |d| < 5 then v else clampScroll h (v + d)

/-- Keys handled by `handleKeyDown` (page.tsx lines 344-358). -/
inductive ScrollKey
  | arrowDown
  | arrowUp
  | homeKey
  | endKey
deriving DecidableEq, Repr

/-- Effect of one handled key press on `virtualScroll`
    (page.tsx lines 342-358); the step is `window.innerHeight * 0.5`. -/
def keyScroll (h v : ℚ) : ScrollKey → ℚ
  | ScrollKey.arrowDown => min (maxScroll h) (v + h * (1 / 2))
  | ScrollKey.arrowUp => max 0 (v - h * (1 / 2))
  | ScrollKey.homeKey => 0
  | ScrollKey.endKey => maxScroll h

/-- An input event that moves the virtual scroll position. -/
inductive ScrollEvent
  | wheel (d : ℚ)
  | key (k : ScrollKey)
deriving DecidableEq, Repr

/-- One scroll event applied to the virtual scroll position. -/
def scrollStep (h v : ℚ) : ScrollEvent → ℚ
  | ScrollEvent.wheel d => wheelScroll h v d
  | ScrollEvent.key k => keyScroll h v k

/-- A whole sequence of scroll events applied in order. -/
def scrollRun (h v : ℚ) : List ScrollEvent → ℚ
  | [] => v
  | e :: es => scrollRun h (scrollStep h v e) es

/-! ### Phase assignment (the if/else chain of `handleWheel`,
    page.tsx lines 299-335; identical chain in `handleKeyDown`) -/

/-- The phase the handlers dispatch on: the ascending chain of inclusive
    comparisons `virtualScroll <= cumulative bound` from page.tsx
    lines 299, 306, 316, 322, with the final `else` as phase 5. -/
def currentPhase (h v : ℚ) : ℕ :=
  if v ≤ videoScrollMax h then 1
  else if v ≤ videoScrollMax h + textExitScrollMax h then 2
  else if v ≤ videoScrollMax h + textExitScrollMax h + elCapitanSlideUpMax h then 3
  else if v ≤ videoScrollMax h + textExitScrollMax h + elCapitanSlideUpMax h +
      elCapitanSlideRightMax h then 4
  else 5

/-- Cumulative upper bound of phase `i` (partial sums of the extents). -/
def cumBound (h : ℚ) : ℕ → ℚ
  | 1 => videoScrollMax h
  | 2 => videoScrollMax h + textExitScrollMax h
  | 3 => videoScrollMax h + textExitScrollMax h + elCapitanSlideUpMax h
  | 4 => videoScrollMax h + textExitScrollMax h + elCapitanSlideUpMax h +
      elCapitanSlideRightMax h
  | 5 => maxScroll h
  | _ => 0

/-- Phase `i` claims position `v`: `v` lies in phase `i`'s half-open range
    (phase 1 additionally contains its lower endpoint 0). -/
def claimedBy (h : ℚ) : ℕ → ℚ → Bool
  | 1, v => decide (0 ≤ v ∧ v ≤ cumBound h 1)
  | 2, v => decide (cumBound h 1 < v ∧ v ≤ cumBound h 2)
  | 3, v => decide (cumBound h 2 < v ∧ v ≤ cumBound h 3)
  | 4, v => decide (cumBound h 3 < v ∧ v ≤ cumBound h 4)
  | 5, v => decide (cumBound h 4 < v ∧ v ≤ cumBound h 5)
  | _, _ => false

/-- Modelled from the spec's words (boundary edge policy): the earliest phase
    whose cumulative upper bound is `≥` the position. -/
def specEarliestPhase (h v : ℚ) : ℕ :=
  if cumBound h 1 ≥ v then 1
  else if cumBound h 2 ≥ v then 2
  else if cumBound h 3 ≥ v then 3
  else if cumBound h 4 ≥ v then 4
  else 5

/-! ### `updateTextPosition` and the staged opacities
    (page.tsx lines 177-246) -/

/-- `arrivalPoint = 0.6` (page.tsx line 188). -/
def arrivalPoint : ℚ := 3 / 5

/-- `startOffset = 20` viewport-height units (page.tsx line 189). -/
def startOffsetText : ℚ := 20

/-- `reentryThreshold = 0.3` (page.tsx line 193). -/
def reentryThreshold : ℚ := 3 / 10

/-- The `(translateY, opacity)` pair computed for the welcome text by
    `updateTextPosition(progress, exitProgress)` (page.tsx lines 195-220). -/
def textPosition (progress exitProgress : ℚ) : ℚ × ℚ :=
  if 0 < exitProgress then
    if reentryThreshold < exitProgress then
      (startOffsetText, 0)
    else
      (startOffsetText * (1 - (1 - exitProgress / reentryThreshold)),
        1 - exitProgress / reentryThreshold)
  else if progress < arrivalPoint then
    (startOffsetText * (1 - progress / arrivalPoint), progress / arrivalPoint)
  else
    (0, 1)

/-- `darkOpacity = Math.min(1, exitProgress * 2)` (page.tsx line 230). -/
def darkOverlayOpacity (exitProgress : ℚ) : ℚ := min 1 (exitProgress * 2)

/-- `waveOpacity = Math.max(0, (exitProgress - 0.5) * 2)` (page.tsx line 236). -/
def revealWaveOpacity (exitProgress : ℚ) : ℚ := max 0 ((exitProgress - 1 / 2) * 2)

/-- `revealImage.style.pointerEvents = waveOpacity > 0.5 ? "auto" : "none"`
    (page.tsx line 239), as a Boolean: `true` means `auto`. -/
def revealPointerEventsAuto (exitProgress : ℚ) : Bool :=
  decide (revealWaveOpacity exitProgress > 1 / 2)

/-- `video.style.opacity = exitProgress === 0 ? "1" : (1 - exitProgress)`
    (page.tsx line 244). -/
def primaryVideoOpacity (exitProgress : ℚ) : ℚ :=
  if exitProgress = 0 then 1 else 1 - exitProgress

/-! ### The EL CAPITAN title state machine
    (page.tsx lines 66-137: `updateElCapitanPosition`, `triggerSlideRight`,
    and the two `setTimeout` callbacks) -/

/-- `elCapitanState` values (page.tsx line 66). -/
inductive ECState
  | hidden
  | slidingUp
  | centered
  | slidingRight
  | exited
deriving DecidableEq, Repr

/-- The mutable state the title logic owns: `elCapitanState`,
    `pendingSlideRight`, and the `showElCapitan` text-reveal trigger. -/
structure TitleState where
  es : ECState
  pending : Bool
  textShown : Bool
deriving DecidableEq, Repr

/-- `triggerSlideRight` (page.tsx lines 70-80): sets the state to
    `sliding-right` (the styles it writes are not part of the model; the
    exit timer it schedules is the separate `exitFire` event). -/
def triggerSlideRight (s : TitleState) : TitleState :=
  { s with es := ECState.slidingRight }

/-- Events driving the title machine: a discrete phase signal in `{0,1,2}`
    from the scroll handlers, the settle timer scheduled on entering
    `sliding-up` (page.tsx lines 106-115), and the exit timer scheduled by
    `triggerSlideRight` (page.tsx lines 75-79).  Each timer callback guards
    on the current state, so a stale callback is ignored. -/
inductive TitleEvent
  | signal (p : ℕ)
  | settleFire
  | exitFire
deriving DecidableEq, Repr

/-- The transition function: `updateElCapitanPosition(phase)` for `signal p`
    (page.tsx lines 82-137), and the guarded timer callbacks. -/
def titleStep (s : TitleState) : TitleEvent → TitleState
  | TitleEvent.signal p =>
    if p = 0 ∧ s.es ≠ ECState.hidden then
      ⟨ECState.hidden, false, false⟩
    else if p = 1 ∧ s.es = ECState.hidden then
      ⟨ECState.slidingUp, false, true⟩
    else if p = 2 ∧ s.es = ECState.centered then
      triggerSlideRight s
    else if p = 2 ∧ s.es = ECState.slidingUp then
      { s with pending := true }
    else if p = 1 ∧ s.es = ECState.exited then
      ⟨ECState.centered, false, true⟩
    else if p = 1 ∧ s.es = ECState.slidingRight then
      ⟨ECState.centered, false, true⟩
    else s
  | TitleEvent.settleFire =>
    if s.es = ECState.slidingUp then
      if s.pending then triggerSlideRight ⟨ECState.centered, false, s.textShown⟩
      else { s with es := ECState.centered }
    else s
  | TitleEvent.exitFire =>
    if s.es = ECState.slidingRight then { s with es := ECState.exited } else s

/-! ### The secondary (Trump) video scrub
    (page.tsx lines 139-175: `updateTrumpVideo`) -/

/-- The observable state of the secondary video element. -/
structure TrumpVideo where
  paused : Bool
  currentTime : ℚ
  duration : ℚ
  readyState : ℕ
  triggered : Bool
  opacity : ℚ
deriving DecidableEq, Repr

/-- `updateTrumpVideo(progress)` (page.tsx lines 139-175).  For positive
    progress it shows the video, pauses it if playing, computes
    `targetTime = progress * duration` and seeks only when
    `|currentTime - targetTime| > 0.01`; for non-positive progress it hides
    the video and rewinds it when loaded. -/
def updateTrumpVideo (v : TrumpVideo) (progress : ℚ) : TrumpVideo :=
  if 0 < progress then
    let v1 := if v.triggered then v else { v with triggered := true, opacity := 1 }
    if 2 ≤ v1.readyState ∧ v1.duration ≠ 0 then
      let v2 := if v1.paused then v1 else { v1 with paused := true }
      let targetTime := progress * v2.duration
      if |v2.currentTime - targetTime| > 1 / 100 then
        { v2 with currentTime := targetTime }
      else v2
    else v1
  else
    if v.triggered then
      { v with
        triggered := false
        opacity := 0
        currentTime := if 2 ≤ v.readyState then 0 else v.currentTime }
    else v

/-! ### The fragment program's dither-and-quantize stage
    (reveal-wave-image.tsx lines 46-61 and 97-113) -/

/-- The 4x4 Bayer matrix `pattern[16]` (reveal-wave-image.tsx lines 51-55). -/
def bayerMatrix : List ℚ := [0, 8, 2, 10, 12, 4, 14, 6, 3, 11, 1, 9, 15, 7, 13, 5]

/-- `bayer4x4(pos)` (reveal-wave-image.tsx lines 46-61): index
    `(x mod 4) + (y mod 4) * 4` into the matrix, divided by 16. -/
def bayer4x4 (x y : ℕ) : ℚ := bayerMatrix.getD (x % 4 + y % 4 * 4) 0 / 16

/-- `adjusted = gray + (dither - 0.5) * 0.5`
    (reveal-wave-image.tsx line 105). -/
def adjustedLuminance (gray dith : ℚ) : ℚ := gray + (dith - 1 / 2) * (1 / 2)

/-- The 3-level quantization (reveal-wave-image.tsx lines 106-112):
    `< 0.33 → 0`, `< 0.66 → 0.5`, else `1`. -/
def quantize3 (adjusted : ℚ) : ℚ :=
  if adjusted < 33 / 100 then 0 else if adjusted < 66 / 100 then 1 / 2 else 1

/-- The whole dither-and-quantize stage applied to a luminance value and a
    dither value. -/
def ditherQuantize (gray dith : ℚ) : ℚ := quantize3 (adjustedLuminance gray dith)

/-! ### Cover-fit UV mapping and mesh scale
    (reveal-wave-image.tsx lines 186-201 and 218-245) -/

/-- `visibleWidthRatio = containerAspect / aspectRatio`
    (reveal-wave-image.tsx line 231). -/
def visibleWidthRatio (a c : ℚ) : ℚ := c / a

/-- `offsetX = (1 - visibleWidthRatio) / 2` (reveal-wave-image.tsx line 232). -/
def coverOffsetX (a c : ℚ) : ℚ := (1 - visibleWidthRatio a c) / 2

/-- CPU-side pointer-to-UV mapping (reveal-wave-image.tsx lines 220-244):
    pointer device coordinates in `[-1,1]` are first mapped to screen
    coordinates in `[0,1]`, then offset and scaled by the cover-fit crop.
    `a` is the image aspect ratio, `c` the viewport aspect ratio. -/
def pointerToUV (a c px py : ℚ) : ℚ × ℚ :=
  let screenX := (px + 1) / 2
  let screenY := (py + 1) / 2
  if a > c then
    (coverOffsetX a c + screenX * visibleWidthRatio a c, screenY)
  else
    let visibleHeightRatio := a / c
    let offsetY := (1 - visibleHeightRatio) / 2
    (screenX, offsetY + screenY * visibleHeightRatio)

/-- Mesh scale for object-fit cover (reveal-wave-image.tsx lines 186-201):
    `w`/`hv` are viewport width and height, `a` the image aspect ratio. -/
def coverScale (a w hv : ℚ) : ℚ × ℚ :=
  let containerAspect := w / hv
  if a > containerAspect then (hv * a, hv) else (w, w / a)

/-! ### The whole wheel handler on an explicit world state
    (page.tsx lines 283-336) -/

/-- `startOffset = 0.1` (page.tsx line 43): the primary video's initial
    timestamp. -/
def startOffsetVideo : ℚ := 1 / 10

/-- Everything the wheel handler reads or writes: the virtual scroll
    position, the primary video, the welcome-text / overlay / reveal styles,
    the title machine and the secondary video. -/
structure World where
  virtualScroll : ℚ
  videoReadyState : ℕ
  videoDuration : ℚ
  videoTime : ℚ
  textTranslateY : ℚ
  textOpacity : ℚ
  darkOpacity : ℚ
  revealOpacity : ℚ
  revealPE : Bool
  videoOpacity : ℚ
  title : TitleState
  trump : TrumpVideo
deriving DecidableEq, Repr

/-- `updateTextPosition(progress, exitProgress)` as a world update
    (page.tsx lines 177-246): welcome-text transform and opacity, dark
    overlay, reveal image opacity and pointer-events, primary video fade. -/
def applyTextPosition (w : World) (progress exitProgress : ℚ) : World :=
  { w with
    textTranslateY := (textPosition progress exitProgress).1
    textOpacity := (textPosition progress exitProgress).2
    darkOpacity := darkOverlayOpacity exitProgress
    revealOpacity := revealWaveOpacity exitProgress
    revealPE := revealPointerEventsAuto exitProgress
    videoOpacity := primaryVideoOpacity exitProgress }

/-- `updateElCapitanPosition(p)` as a world update. -/
def applyElCapitan (w : World) (p : ℕ) : World :=
  { w with title := titleStep w.title (TitleEvent.signal p) }

/-- `updateTrumpVideo(progress)` as a world update. -/
def applyTrump (w : World) (progress : ℚ) : World :=
  { w with trump := updateTrumpVideo w.trump progress }

/-- `video.duration || 8` (page.tsx line 297): JavaScript falls back to 8
    when the duration is falsy (0 / NaN). -/
def effectiveDuration (w : World) : ℚ :=
  if w.videoDuration = 0 then 8 else w.videoDuration

/-- `handleWheel` (page.tsx lines 284-336): the ready guard, the
    small-delta momentum filter, the clamped accumulation, then the phase
    dispatch driving every output. -/
def handleWheel (h : ℚ) (w : World) (d : ℚ) : World :=
  if w.videoReadyState < 3 then w
  else if |d| < 5 then w
  else
    let v := clampScroll h (w.virtualScroll + d)
    let dur := effectiveDuration w
    let w0 := { w with virtualScroll := v }
    if v ≤ videoScrollMax h then
      let videoProgress := v / videoScrollMax h
      applyTrump (applyElCapitan (applyTextPosition
        { w0 with videoTime :=
            startOffsetVideo + (dur - startOffsetVideo) * videoProgress }
        videoProgress 0) 0) 0
    else if v ≤ videoScrollMax h + textExitScrollMax h then
      let exitProgress := (v - videoScrollMax h) / textExitScrollMax h
      applyTrump (applyElCapitan (applyTextPosition
        { w0 with videoTime := dur } 1 exitProgress) 0) 0
    else if v ≤ videoScrollMax h + textExitScrollMax h + elCapitanSlideUpMax h then
      applyTrump (applyElCapitan (applyTextPosition
        { w0 with videoTime := dur } 1 1) 1) 0
    else if v ≤ videoScrollMax h + textExitScrollMax h + elCapitanSlideUpMax h +
        elCapitanSlideRightMax h then
      applyTrump (applyElCapitan (applyTextPosition
        { w0 with videoTime := dur } 1 1) 2) 0
    else
      let trumpProgress := (v - videoScrollMax h - textExitScrollMax h -
        elCapitanSlideUpMax h - elCapitanSlideRightMax h) / trumpVideoFadeMax h
      applyTrump (applyElCapitan (applyTextPosition
        { w0 with videoTime := dur } 1 1) 2) (min 1 trumpProgress)

/-! ## Theorems -/

/-- Claim C3: for every `exitProgress` in `[0,1]`, the overlay opacity is
    `min(1, exitProgress * 2)`, the reveal-image opacity is
    `max(0, (exitProgress - 0.5) * 2)` and the primary video opacity is
    `1 - exitProgress`; at `exitProgress = 0.25` the overlay opacity is 0.5
    and the reveal opacity 0, at `exitProgress = 0.75` the overlay opacity
    is 1 and the reveal opacity 0.5. -/
theorem exit_opacity_formulas (e : ℚ) (_h0 : 0 ≤ e) (_h1 : e ≤ 1) :
    (darkOverlayOpacity e = min 1 (e * 2)
      ∧ revealWaveOpacity e = max 0 ((e - 1 / 2) * 2)
      ∧ primaryVideoOpacity e = 1 - e)
    ∧ (darkOverlayOpacity (1 / 4) = 1 / 2 ∧ revealWaveOpacity (1 / 4) = 0)
    ∧ (darkOverlayOpacity (3 / 4) = 1 ∧ revealWaveOpacity (3 / 4) = 1 / 2) := by
  refine ⟨⟨rfl, rfl, ?_⟩, ⟨?_, ?_⟩, ⟨?_, ?_⟩⟩
  · unfold primaryVideoOpacity
    split_ifs with he
    · rw [he]; norm_num
    · rfl
  all_goals norm_num [darkOverlayOpacity, revealWaveOpacity]

/-- Witness for C3 at `exitProgress = 1/4`. -/
theorem exit_opacity_formulas_witness :
    primaryVideoOpacity (1 / 4) = 3 / 4 ∧ darkOverlayOpacity (1 / 4) = 1 / 2 := by
  have hm := exit_opacity_formulas (1 / 4) (by norm_num) (by norm_num)
  exact ⟨by rw [hm.1.2.2]; norm_num, hm.2.1.1⟩

/-- Claim C4: for `exitProgress > 0`, above the re-entry threshold 0.3 the
    welcome text sits hidden at the 20-unit start offset with opacity 0; at
    or below the threshold the re-entry progress is
    `1 - exitProgress / 0.3`, the offset is `startOffset * (1 - reentry)`
    (so it runs from the start offset to 0) and the opacity equals the
    re-entry progress (0 to 1). -/
theorem text_reentry (p e : ℚ) (he : 0 < e) :
    (reentryThreshold < e → textPosition p e = (startOffsetText, 0))
    ∧ (e ≤ reentryThreshold →
        textPosition p e =
          (startOffsetText * (1 - (1 - e / reentryThreshold)),
            1 - e / reentryThreshold)) := by
  unfold textPosition
  rw [if_pos he]
  constructor
  · intro hc; rw [if_pos hc]
  · intro hc; rw [if_neg (not_lt.mpr hc)]

/-- Witness for C4 at `exitProgress = 3/20` (re-entry progress `1/2`). -/
theorem text_reentry_witness : textPosition 1 (3 / 20) = (10, 1 / 2) := by
  have hx := (text_reentry 1 (3 / 20) (by norm_num)).2
    (by norm_num [reentryThreshold])
  rw [hx]
  norm_num [startOffsetText, reentryThreshold]

/-- Claim C5, counterexample: gray 0.5 at the Bayer slot of value 0 gives
    dither 0, perturbed luminance `0.5 + (0 - 0.5) * 0.5 = 0.25`, which is
    below the 0.33 band — the quantized output is not the claimed middle
    level 0.5. -/
theorem dither_midgray_counterexample :
    bayer4x4 0 0 = 0
    ∧ adjustedLuminance (1 / 2) (bayer4x4 0 0) = 1 / 4
    ∧ adjustedLuminance (1 / 2) (bayer4x4 0 0) < 33 / 100
    ∧ ditherQuantize (1 / 2) (bayer4x4 0 0) ≠ 1 / 2 := by
  norm_num [bayer4x4, bayerMatrix, adjustedLuminance, ditherQuantize, quantize3,
    List.getD]

/-- Claim C5 as amended: gray 0.5 at the Bayer slot of value 0 has
    dither-perturbed luminance 0.25, which falls in the low band of the
    3-level quantization (`< 0.33`), and the quantized output is exactly
    0. -/
theorem dither_midgray_amended :
    adjustedLuminance (1 / 2) (bayer4x4 0 0) = 1 / 4
    ∧ adjustedLuminance (1 / 2) (bayer4x4 0 0) < 33 / 100
    ∧ ditherQuantize (1 / 2) (bayer4x4 0 0) = 0 := by
  norm_num [bayer4x4, bayerMatrix, adjustedLuminance, ditherQuantize, quantize3,
    List.getD]

/-- Claim C6: with image aspect 2 and viewport aspect 1 the visible width
    fraction is `c/a = 0.5` and the offset is 0.25; the pointer at device
    coordinates `(0,0)` maps to UV `(0.5, 0.5)` and the left edge maps to
    UV x `0.25`; the same cover transform fixes the mesh scale `(2, 1)`,
    whose inverse width ratio is again the visible width fraction. -/
theorem cover_fit_scenario :
    visibleWidthRatio 2 1 = 1 / 2
    ∧ coverOffsetX 2 1 = 1 / 4
    ∧ pointerToUV 2 1 0 0 = (1 / 2, 1 / 2)
    ∧ pointerToUV 2 1 (-1) 0 = (1 / 4, 1 / 2)
    ∧ coverScale 2 1 1 = (2, 1)
    ∧ 1 / (coverScale 2 1 1).1 = visibleWidthRatio 2 1 := by
  norm_num [visibleWidthRatio, coverOffsetX, pointerToUV, coverScale]

/-- Claim C7: from `hidden`, `phaseSignal=1` then `phaseSignal=2` before the
    settle timer fires leaves the machine at `sliding-up` with
    `pendingSlideRight = true`; the settle timer then firing (no reset in
    between) moves it to `sliding-right` with the flag cleared. -/
theorem title_deferred_slide_right :
    titleStep (titleStep ⟨ECState.hidden, false, false⟩ (TitleEvent.signal 1))
        (TitleEvent.signal 2) = ⟨ECState.slidingUp, true, true⟩
    ∧ titleStep (titleStep (titleStep ⟨ECState.hidden, false, false⟩
        (TitleEvent.signal 1)) (TitleEvent.signal 2)) TitleEvent.settleFire
      = ⟨ECState.slidingRight, false, true⟩ := by decide

/-- Claim C8: `phaseSignal=0` from any non-hidden state yields `hidden`,
    clears `pendingSlideRight` and resets the text-reveal trigger; a settle
    timer firing after the reset leaves the state unchanged (its guard on
    `sliding-up` ignores the stale callback). -/
theorem title_reset (s : TitleState) (hs : s.es ≠ ECState.hidden) :
    titleStep s (TitleEvent.signal 0) = ⟨ECState.hidden, false, false⟩
    ∧ titleStep (titleStep s (TitleEvent.signal 0)) TitleEvent.settleFire
      = titleStep s (TitleEvent.signal 0) := by
  obtain ⟨es, pending, shown⟩ := s
  cases es <;> revert pending shown <;> first | (exact absurd rfl hs) | decide

/-- Witness for C8 starting from `sliding-up` with the flag set. -/
theorem title_reset_witness :
    titleStep ⟨ECState.slidingUp, true, true⟩ (TitleEvent.signal 0)
      = ⟨ECState.hidden, false, false⟩
    ∧ titleStep (titleStep ⟨ECState.slidingUp, true, true⟩ (TitleEvent.signal 0))
        TitleEvent.settleFire
      = titleStep ⟨ECState.slidingUp, true, true⟩ (TitleEvent.signal 0) :=
  title_reset ⟨ECState.slidingUp, true, true⟩ (by decide)

/-- Claim C10: a wheel event with `|deltaY| < 5` returns early — the
    virtual scroll position, the primary video, every text / overlay /
    reveal style, the title machine and the secondary video are all left
    exactly as they were. -/
theorem wheel_small_delta_noop (h : ℚ) (w : World) (d : ℚ) (hd : |d| < 5) :
    handleWheel h w d = w := by
  unfold handleWheel
  by_cases h1 : w.videoReadyState < 3
  · rw [if_pos h1]
  · rw [if_neg h1, if_pos hd]

/-- A concrete world state for evaluating the wheel handler. -/
def sampleWorld : World where
  virtualScroll := 30
  videoReadyState := 4
  videoDuration := 8
  videoTime := 1 / 10
  textTranslateY := 20
  textOpacity := 0
  darkOpacity := 0
  revealOpacity := 0
  revealPE := false
  videoOpacity := 1
  title := ⟨ECState.hidden, false, false⟩
  trump := ⟨true, 0, 10, 4, false, 0⟩

/-- Witness for C10: a delta of 3 leaves the sample world untouched. -/
theorem wheel_small_delta_noop_witness :
    handleWheel 100 sampleWorld 3 = sampleWorld :=
  wheel_small_delta_noop 100 sampleWorld 3 (by norm_num)

/-- Claim C9: in the scrub branch the secondary video ends up paused, and
    the timestamp is rewritten exactly when the distance to the target
    `progress * duration` exceeds 0.01 (otherwise it is left alone). -/
theorem trump_scrub_threshold (v : TrumpVideo) (p : ℚ) (h2 : 2 ≤ v.readyState)
    (hd : v.duration ≠ 0) (hp : 0 < p) :
    (updateTrumpVideo v p).paused = true
    ∧ (|v.currentTime - p * v.duration| ≤ 1 / 100 →
        (updateTrumpVideo v p).currentTime = v.currentTime)
    ∧ (1 / 100 < |v.currentTime - p * v.duration| →
        (updateTrumpVideo v p).currentTime = p * v.duration) := by
  obtain ⟨pa, ct, du, rs, tr, op⟩ := v
  dsimp only at h2 hd ⊢
  unfold updateTrumpVideo
  rw [if_pos hp]
  cases tr <;> cases pa <;>
    by_cases hth : (100 : ℚ)⁻¹ < |ct - p * du| <;>
    refine ⟨?_, fun hc => ?_, fun hc => ?_⟩ <;>
    first
      | exact absurd hc (not_le.mpr hth)
      | exact absurd hc hth
      | (rw [one_div] at hc; exact absurd hc (not_le.mpr hth))
      | (rw [one_div] at hc; exact absurd hc hth)
      | simp [updateTrumpVideo, hp, h2, hd, hth]

/-- Concrete secondary-video state: current timestamp 2.000, duration 8.02,
    so that progress 1/4 targets 2.005 (within the 0.01 threshold). -/
def trumpNear : TrumpVideo := ⟨false, 2, 802 / 100, 2, true, 1⟩

/-- Concrete secondary-video state: current timestamp 2.000, duration 8.08,
    so that progress 1/4 targets 2.02 (beyond the 0.01 threshold). -/
def trumpFar : TrumpVideo := ⟨false, 2, 808 / 100, 2, true, 1⟩

/-- Witness for C9: target 2.005 issues no seek, target 2.02 seeks, and the
    video is paused either way. -/
theorem trump_scrub_threshold_witness :
    (updateTrumpVideo trumpNear (1 / 4)).currentTime = 2
    ∧ (updateTrumpVideo trumpNear (1 / 4)).paused = true
    ∧ (updateTrumpVideo trumpFar (1 / 4)).currentTime = 202 / 100 := by
  have hnear := trump_scrub_threshold trumpNear (1 / 4) (by norm_num [trumpNear])
    (by norm_num [trumpNear]) (by norm_num)
  have hfar := trump_scrub_threshold trumpFar (1 / 4) (by norm_num [trumpFar])
    (by norm_num [trumpFar]) (by norm_num)
  refine ⟨?_, hnear.1, ?_⟩
  · have hc : |trumpNear.currentTime - 1 / 4 * trumpNear.duration| ≤ 1 / 100 := by
      norm_num [trumpNear, abs_le]
    exact hnear.2.1 hc
  · have hc : 1 / 100 < |trumpFar.currentTime - 1 / 4 * trumpFar.duration| := by
      norm_num [trumpFar, lt_abs]
    have hx := hfar.2.2 hc
    rw [hx]
    norm_num [trumpFar]

/-- `maxScroll` is non-negative for a positive viewport height. -/
theorem maxScroll_nonneg (h : ℚ) (hh : 0 < h) : 0 ≤ maxScroll h := by
  unfold maxScroll videoScrollMax textExitScrollMax elCapitanSlideUpMax
    elCapitanSlideRightMax trumpVideoFadeMax
  linarith

/-- The clamp always lands inside `[0, maxScroll]`. -/
theorem clampScroll_mem (h : ℚ) (hh : 0 < h) (v : ℚ) :
    0 ≤ clampScroll h v ∧ clampScroll h v ≤ maxScroll h := by
  unfold clampScroll
  exact ⟨le_max_left 0 _, max_le (maxScroll_nonneg h hh) (min_le_left _ _)⟩

/-- One scroll event keeps the position inside `[0, maxScroll]`. -/
theorem scrollStep_mem (h : ℚ) (hh : 0 < h) (v : ℚ) (hv0 : 0 ≤ v)
    (hv1 : v ≤ maxScroll h) (e : ScrollEvent) :
    0 ≤ scrollStep h v e ∧ scrollStep h v e ≤ maxScroll h := by
  cases e with
  | wheel d =>
    simp only [scrollStep]
    unfold wheelScroll
    split_ifs
    · exact ⟨hv0, hv1⟩
    · exact clampScroll_mem h hh _
  | key k =>
    cases k <;> simp only [scrollStep, keyScroll]
    · exact ⟨le_min (maxScroll_nonneg h hh) (by linarith), min_le_left _ _⟩
    · exact ⟨le_max_left 0 _, max_le (maxScroll_nonneg h hh) (by linarith)⟩
    · exact ⟨le_refl 0, maxScroll_nonneg h hh⟩
    · exact ⟨maxScroll_nonneg h hh, le_refl _⟩

/-- A whole event sequence keeps the position inside `[0, maxScroll]`. -/
theorem scrollRun_mem (h : ℚ) (hh : 0 < h) :
    ∀ (es : List ScrollEvent) (v : ℚ), 0 ≤ v → v ≤ maxScroll h →
      0 ≤ scrollRun h v es ∧ scrollRun h v es ≤ maxScroll h := by
  intro es
  induction es with
  | nil => intro v hv0 hv1; exact ⟨hv0, hv1⟩
  | cons e es ih =>
    intro v hv0 hv1
    have hs := scrollStep_mem h hh v hv0 hv1 e
    exact ih _ hs.1 hs.2

/-- Claim C1, counterexample: at position 1199 (viewport height 100, so
    `maxScroll = 1200`) a wheel delta of 3 has unclamped sum 1202, outside
    the range, yet the handler's momentum filter drops it — the resulting
    position is 1199, not the boundary value. -/
theorem scroll_boundary_counterexample :
    maxScroll 100 < (1199 : ℚ) + 3
    ∧ wheelScroll 100 1199 3 ≠ maxScroll 100
    ∧ wheelScroll 100 1199 3 ≠ 0 := by
  have h3 : |(3 : ℚ)| < 5 := by
    rw [abs_of_nonneg] <;> norm_num
  unfold wheelScroll
  rw [if_pos h3]
  norm_num [maxScroll, videoScrollMax, textExitScrollMax, elCapitanSlideUpMax,
    elCapitanSlideRightMax, trumpVideoFadeMax]

/-- Claim C1 as amended: every event sequence keeps the position within
    `[0, maxScroll]`; a keyboard step, or a wheel delta with `|Δ| ≥ 5`,
    whose unclamped sum leaves the range yields exactly the boundary value
    (wheel deltas with `|Δ| < 5` are dropped by the momentum filter and
    leave the position unchanged). -/
theorem scroll_clamp_invariant (h : ℚ) (hh : 0 < h) (es : List ScrollEvent) :
    (0 ≤ scrollRun h 0 es ∧ scrollRun h 0 es ≤ maxScroll h)
    ∧ (∀ v d, 5 ≤ |d| → maxScroll h < v + d → wheelScroll h v d = maxScroll h)
    ∧ (∀ v d, 5 ≤ |d| → v + d < 0 → wheelScroll h v d = 0)
    ∧ (∀ v, maxScroll h < v + h * (1 / 2) →
        keyScroll h v ScrollKey.arrowDown = maxScroll h)
    ∧ (∀ v, v - h * (1 / 2) < 0 → keyScroll h v ScrollKey.arrowUp = 0)
    ∧ (∀ v d, |d| < 5 → wheelScroll h v d = v) := by
  refine ⟨scrollRun_mem h hh es 0 le_rfl (maxScroll_nonneg h hh),
    ?_, ?_, ?_, ?_, ?_⟩
  · intro v d hd hover
    unfold wheelScroll clampScroll
    rw [if_neg (not_lt.mpr hd), min_eq_left (le_of_lt hover)]
    exact max_eq_right (maxScroll_nonneg h hh)
  · intro v d hd hunder
    unfold wheelScroll clampScroll
    rw [if_neg (not_lt.mpr hd)]
    exact max_eq_left (le_trans (min_le_right _ _) (le_of_lt hunder))
  · intro v hover
    simp only [keyScroll]
    exact min_eq_left (le_of_lt hover)
  · intro v hunder
    simp only [keyScroll]
    exact max_eq_left (le_of_lt hunder)
  · intro v d hd
    unfold wheelScroll
    rw [if_pos hd]

/-- Witness for C1 (amended) with viewport height 100: a large overshooting
    delta snaps to `maxScroll`, and a run from 0 stays in range. -/
theorem scroll_clamp_invariant_witness :
    (0 ≤ scrollRun 100 0 [ScrollEvent.wheel 50, ScrollEvent.key ScrollKey.arrowDown]
      ∧ scrollRun 100 0 [ScrollEvent.wheel 50, ScrollEvent.key ScrollKey.arrowDown]
        ≤ maxScroll 100)
    ∧ wheelScroll 100 1195 100 = maxScroll 100 := by
  have hm := scroll_clamp_invariant 100 (by norm_num)
    [ScrollEvent.wheel 50, ScrollEvent.key ScrollKey.arrowDown]
  refine ⟨hm.1, hm.2.1 1195 100 ?_ ?_⟩
  · rw [abs_of_nonneg] <;> norm_num
  · norm_num [maxScroll, videoScrollMax, textExitScrollMax,
      elCapitanSlideUpMax, elCapitanSlideRightMax, trumpVideoFadeMax]

/-- The phase the dispatch lands on always claims the position. -/
theorem claimedBy_currentPhase (h v : ℚ) (hv0 : 0 ≤ v)
    (hv1 : v ≤ maxScroll h) :
    claimedBy h (currentPhase h v) v = true := by
  unfold currentPhase
  split_ifs with hc1 hc2 hc3 hc4 <;>
    simp only [claimedBy, cumBound, decide_eq_true_eq]
  · exact ⟨hv0, hc1⟩
  · exact ⟨not_le.mp hc1, hc2⟩
  · exact ⟨not_le.mp hc2, hc3⟩
  · exact ⟨not_le.mp hc3, hc4⟩
  · exact ⟨not_le.mp hc4, hv1⟩

/-- A phase that claims the position is the dispatched one. -/
theorem claimedBy_imp (h v : ℚ) (hh : 0 < h) (i : ℕ)
    (hcl : claimedBy h i v = true) : i = currentPhase h v := by
  have hext : (0 : ℚ) ≤ h := le_of_lt hh
  have h4 : (0 : ℚ) ≤ 4 * h := by linarith
  rcases Nat.lt_or_ge i 6 with hlt | hge
  · interval_cases i
    · simp [claimedBy] at hcl
    · simp only [claimedBy, cumBound, decide_eq_true_eq] at hcl
      unfold currentPhase
      rw [if_pos hcl.2]
    · simp only [claimedBy, cumBound, decide_eq_true_eq] at hcl
      unfold currentPhase
      rw [if_neg (not_le.mpr hcl.1), if_pos hcl.2]
    · simp only [claimedBy, cumBound, decide_eq_true_eq] at hcl
      unfold currentPhase
      unfold videoScrollMax textExitScrollMax elCapitanSlideUpMax at hcl ⊢
      rw [if_neg (not_le.mpr (by linarith [hcl.1])),
        if_neg (not_le.mpr hcl.1), if_pos hcl.2]
    · simp only [claimedBy, cumBound, decide_eq_true_eq] at hcl
      unfold currentPhase
      unfold videoScrollMax textExitScrollMax elCapitanSlideUpMax
        elCapitanSlideRightMax at hcl ⊢
      rw [if_neg (not_le.mpr (by linarith [hcl.1])),
        if_neg (not_le.mpr (by linarith [hcl.1])),
        if_neg (not_le.mpr hcl.1), if_pos hcl.2]
    · simp only [claimedBy, cumBound, decide_eq_true_eq] at hcl
      unfold currentPhase
      unfold videoScrollMax textExitScrollMax elCapitanSlideUpMax
        elCapitanSlideRightMax at hcl ⊢
      rw [if_neg (not_le.mpr (by linarith [hcl.1])),
        if_neg (not_le.mpr (by linarith [hcl.1])),
        if_neg (not_le.mpr (by linarith [hcl.1])),
        if_neg (not_le.mpr hcl.1)]
  · exfalso
    rcases Nat.exists_eq_add_of_le hge with ⟨n, rfl⟩
    rw [Nat.add_comm 6 n] at hcl
    simp [claimedBy] at hcl

/-- Claim C2: the five extents are 4, 2, 1, 1 and 4 viewport heights and
    their sum is `maxScroll`; on `[0, maxScroll]` the handlers' phase
    dispatch is total and deterministic, every position is claimed by
    exactly one phase range, and the dispatched phase is the earliest one
    whose cumulative upper bound is `≥` the position (the inclusive `<=`
    chain in ascending order). -/
theorem phase_partition (h v : ℚ) (hh : 0 < h) (hv0 : 0 ≤ v)
    (hv1 : v ≤ maxScroll h) :
    (videoScrollMax h = 4 * h ∧ textExitScrollMax h = 2 * h
      ∧ elCapitanSlideUpMax h = 1 * h ∧ elCapitanSlideRightMax h = 1 * h
      ∧ trumpVideoFadeMax h = 4 * h
      ∧ videoScrollMax h + textExitScrollMax h + elCapitanSlideUpMax h +
          elCapitanSlideRightMax h + trumpVideoFadeMax h = maxScroll h)
    ∧ (∀ i, claimedBy h i v = true ↔ i = currentPhase h v)
    ∧ currentPhase h v = specEarliestPhase h v := by
  refine ⟨⟨rfl, rfl, rfl, rfl, rfl, rfl⟩, ?_, ?_⟩
  · intro i
    refine ⟨claimedBy_imp h v hh i, fun hi => ?_⟩
    rw [hi]
    exact claimedBy_currentPhase h v hv0 hv1
  · unfold currentPhase specEarliestPhase cumBound maxScroll
    unfold videoScrollMax textExitScrollMax elCapitanSlideUpMax
      elCapitanSlideRightMax trumpVideoFadeMax
    split_ifs with hc1 hc2 hc3 hc4 <;> rfl

/-- Witness for C2 at `h = 100`, `v = 400` (the phase 1 / phase 2
    boundary, claimed by phase 1). -/
theorem phase_partition_witness :
    (claimedBy 100 1 400 = true ↔ (1 : ℕ) = currentPhase 100 400)
    ∧ currentPhase 100 400 = specEarliestPhase 100 400 := by
  have hm := phase_partition 100 400 (by norm_num) (by norm_num)
    (by norm_num [maxScroll, videoScrollMax, textExitScrollMax,
      elCapitanSlideUpMax, elCapitanSlideRightMax, trumpVideoFadeMax])
  exact ⟨hm.2.1 1, hm.2.2⟩

end InsaneWebsite
